import Mathlib

/-! # Keybase client: typed RPC binding of the account protocol, and the list-tracking command

A shallow embedding of

* `go/protocol/keybase1/account.go`: the argument records, `AccountInterface`,
  the method table built by `AccountProtocol`, and the `AccountClient` stubs;
* `go/client/cmd_list_tracking.go`: `CmdListTracking.ParseArgv` and the row
  closure of `displayTable`.

Conventions of the embedding.

* A Go `interface{}` value is a `Dyn`: the nil interface, or a value tagged with
  its dynamic type. A pointer is `Option` of its pointee (`none` is the nil pointer).
* A Go `error` is `Option Error` (`none` is the nil error).
* Code with side effects (the implementation behind `AccountInterface`, the generic
  client) is a function on an explicit state; the binding layer threads that state.
* A run-time panic (nil dereference, index out of range) is the `error` side of `Except`.
* `GUIEntryArg` and `GetPassphraseRes` are declared outside the embedded files; they are
  type parameters `G` and `P`, the Go zero value of each being `default`.
-/

set_option autoImplicit false

namespace Keybase1

/-! ## Argument and result records -/

/-- Record `HasServerKeysRes`. -/
structure HasServerKeysRes where
  HasServerKeys : Bool
  deriving DecidableEq, Repr

/-- Method `DeepCopy` of `HasServerKeysRes`. -/
def HasServerKeysRes.DeepCopy (o : HasServerKeysRes) : HasServerKeysRes :=
  { HasServerKeys := o.HasServerKeys }

/-- Record `PassphraseChangeArg`. -/
structure PassphraseChangeArg where
  SessionID : Int
  OldPassphrase : String
  Passphrase : String
  Force : Bool
  deriving DecidableEq, Repr

/-- Record `PassphrasePromptArg`; `G` stands for `GUIEntryArg`. -/
structure PassphrasePromptArg (G : Type) where
  SessionID : Int
  GuiArg : G
  deriving DecidableEq, Repr

/-- Record `EmailChangeArg`. -/
structure EmailChangeArg where
  SessionID : Int
  NewEmail : String
  deriving DecidableEq, Repr

/-- Record `HasServerKeysArg`. -/
structure HasServerKeysArg where
  SessionID : Int
  deriving DecidableEq, Repr

/-- Record `ResetAccountArg`. -/
structure ResetAccountArg where
  SessionID : Int
  deriving DecidableEq, Repr

/-- Go zero value of `HasServerKeysRes`. -/
def HasServerKeysRes.zero : HasServerKeysRes := { HasServerKeys := false }

/-- Go zero value of `PassphraseChangeArg`. -/
def PassphraseChangeArg.zero : PassphraseChangeArg :=
  { SessionID := 0, OldPassphrase := "", Passphrase := "", Force := false }

/-- Go zero value of `PassphrasePromptArg`. -/
def PassphrasePromptArg.zero {G : Type} [Inhabited G] : PassphrasePromptArg G :=
  { SessionID := 0, GuiArg := default }

/-- Go zero value of `EmailChangeArg`. -/
def EmailChangeArg.zero : EmailChangeArg := { SessionID := 0, NewEmail := "" }

/-- Go zero value of `HasServerKeysArg`. -/
def HasServerKeysArg.zero : HasServerKeysArg := { SessionID := 0 }

/-- Go zero value of `ResetAccountArg`. -/
def ResetAccountArg.zero : ResetAccountArg := { SessionID := 0 }

/-! ## Dynamic values -/

/-- The five argument record types of the account protocol. -/
inductive RecTy where
  | PassphraseChangeArg
  | PassphrasePromptArg
  | EmailChangeArg
  | HasServerKeysArg
  | ResetAccountArg
  deriving DecidableEq, Repr

/-- Dynamic types an `interface{}` value can carry. -/
inductive GoType where
  /-- A bare argument record `T`. -/
  | record (t : RecTy)
  /-- The argument container `*[]T`. -/
  | ptrSlice (t : RecTy)
  | GetPassphraseRes
  | HasServerKeysRes
  /-- The positional-argument list `[]interface{}`. -/
  | ifaceSlice
  /-- Any other type, by name. -/
  | other (name : String)
  deriving DecidableEq, Repr

/-- A Go `interface{}` value. -/
inductive Dyn (G P : Type) where
  /-- The nil interface. -/
  | nil
  | PassphraseChangeArg (a : Keybase1.PassphraseChangeArg)
  | PassphrasePromptArg (a : Keybase1.PassphrasePromptArg G)
  | EmailChangeArg (a : Keybase1.EmailChangeArg)
  | HasServerKeysArg (a : Keybase1.HasServerKeysArg)
  | ResetAccountArg (a : Keybase1.ResetAccountArg)
  /-- A `*[]PassphraseChangeArg`; `none` is the nil pointer. -/
  | ptrPassphraseChangeArgs (p : Option (List Keybase1.PassphraseChangeArg))
  | ptrPassphrasePromptArgs (p : Option (List (Keybase1.PassphrasePromptArg G)))
  | ptrEmailChangeArgs (p : Option (List Keybase1.EmailChangeArg))
  | ptrHasServerKeysArgs (p : Option (List Keybase1.HasServerKeysArg))
  | ptrResetAccountArgs (p : Option (List Keybase1.ResetAccountArg))
  | GetPassphraseRes (r : P)
  | HasServerKeysRes (r : Keybase1.HasServerKeysRes)
  /-- A `[]interface{}`. -/
  | ifaceSlice (xs : List (Dyn G P))
  /-- A value of any other type, identified by the type name. -/
  | other (typeName : String)

/-- Dynamic type of an interface value; the nil interface has none. -/
def Dyn.dynType {G P : Type} : Dyn G P → Option GoType
  | .nil => none
  | .PassphraseChangeArg _ => some (.record .PassphraseChangeArg)
  | .PassphrasePromptArg _ => some (.record .PassphrasePromptArg)
  | .EmailChangeArg _ => some (.record .EmailChangeArg)
  | .HasServerKeysArg _ => some (.record .HasServerKeysArg)
  | .ResetAccountArg _ => some (.record .ResetAccountArg)
  | .ptrPassphraseChangeArgs _ => some (.ptrSlice .PassphraseChangeArg)
  | .ptrPassphrasePromptArgs _ => some (.ptrSlice .PassphrasePromptArg)
  | .ptrEmailChangeArgs _ => some (.ptrSlice .EmailChangeArg)
  | .ptrHasServerKeysArgs _ => some (.ptrSlice .HasServerKeysArg)
  | .ptrResetAccountArgs _ => some (.ptrSlice .ResetAccountArg)
  | .GetPassphraseRes _ => some .GetPassphraseRes
  | .HasServerKeysRes _ => some .HasServerKeysRes
  | .ifaceSlice _ => some .ifaceSlice
  | .other n => some (.other n)

/-- A non-nil Go `error`. -/
inductive Error (G P : Type) where
  /-- The value of `rpc.NewTypeError(expected, actual)`. -/
  | typeError (expected actual : Dyn G P)
  /-- Any other error, by message. -/
  | other (msg : String)

/-- Library function `rpc.NewTypeError`: always a non-nil error, built from both arguments. -/
def NewTypeError {G P : Type} (expected actual : Dyn G P) : Error G P :=
  .typeError expected actual

/-- A run-time panic. -/
inductive Panic where
  /-- Dereference of a nil pointer. -/
  | nilDeref
  /-- Index `idx` into a slice of length `len`, `len ≤ idx`. -/
  | indexOutOfRange (idx len : Nat)
  deriving DecidableEq, Repr

/-- Expression `(*p)[0]` for a pointer `p` to a slice. -/
def derefIndex0 {α : Type} : Option (List α) → Except Panic α
  | none => .error .nilDeref
  | some [] => .error (.indexOutOfRange 0 0)
  | some (a :: _) => .ok a

/-! ## Server side -/

/-- Interface `AccountInterface`: each method is a function on the state `σ` of the
implementation. -/
structure AccountInterface (Ctx G P σ : Type) where
  PassphraseChange : Ctx → PassphraseChangeArg → σ → Option (Error G P) × σ
  PassphrasePrompt : Ctx → PassphrasePromptArg G → σ → (P × Option (Error G P)) × σ
  EmailChange : Ctx → EmailChangeArg → σ → Option (Error G P) × σ
  HasServerKeys : Ctx → Int → σ → (HasServerKeysRes × Option (Error G P)) × σ
  ResetAccount : Ctx → Int → σ → Option (Error G P) × σ

/-- Library enumeration `rpc.MethodType`. -/
inductive MethodType where
  | MethodInvalid
  | MethodCall
  | MethodResponse
  | MethodNotify
  | MethodCancel
  deriving DecidableEq, Repr

/-- What a `Handler` yields: a panic, or the pair `(ret, err)`. -/
abbrev HandlerResult (G P : Type) := Except Panic (Dyn G P × Option (Error G P))

/-- Library record `rpc.ServeHandlerDescription`. -/
structure ServeHandlerDescription (Ctx G P σ : Type) where
  MakeArg : Unit → Dyn G P
  Handler : Ctx → Dyn G P → σ → HandlerResult G P × σ
  MethodType : MethodType

/-- Library record `rpc.Protocol`; the Go map is an association list with distinct keys. -/
structure Protocol (Ctx G P σ : Type) where
  Name : String
  Methods : List (String × ServeHandlerDescription Ctx G P σ)

/-- Function `AccountProtocol`. -/
def AccountProtocol {Ctx G P σ : Type} [Inhabited G] (i : AccountInterface Ctx G P σ) :
    Protocol Ctx G P σ :=
  { Name := "keybase.1.account"
    Methods := [
      ("passphraseChange",
        { MakeArg := fun _ =>
            let ret := List.replicate 1 PassphraseChangeArg.zero
            .ptrPassphraseChangeArgs (some ret)
          Handler := fun ctx args s =>
            match args with
            | .ptrPassphraseChangeArgs typedArgs =>
              match derefIndex0 typedArgs with
              | .error p => (.error p, s)
              | .ok a =>
                let (err, s') := i.PassphraseChange ctx a s
                (.ok (.nil, err), s')
            | _ => (.ok (.nil, some (NewTypeError (.ptrPassphraseChangeArgs none) args)), s)
          MethodType := .MethodCall }),
      ("passphrasePrompt",
        { MakeArg := fun _ =>
            let ret := List.replicate 1 PassphrasePromptArg.zero
            .ptrPassphrasePromptArgs (some ret)
          Handler := fun ctx args s =>
            match args with
            | .ptrPassphrasePromptArgs typedArgs =>
              match derefIndex0 typedArgs with
              | .error p => (.error p, s)
              | .ok a =>
                let ((ret, err), s') := i.PassphrasePrompt ctx a s
                (.ok (.GetPassphraseRes ret, err), s')
            | _ => (.ok (.nil, some (NewTypeError (.ptrPassphrasePromptArgs none) args)), s)
          MethodType := .MethodCall }),
      ("emailChange",
        { MakeArg := fun _ =>
            let ret := List.replicate 1 EmailChangeArg.zero
            .ptrEmailChangeArgs (some ret)
          Handler := fun ctx args s =>
            match args with
            | .ptrEmailChangeArgs typedArgs =>
              match derefIndex0 typedArgs with
              | .error p => (.error p, s)
              | .ok a =>
                let (err, s') := i.EmailChange ctx a s
                (.ok (.nil, err), s')
            | _ => (.ok (.nil, some (NewTypeError (.ptrEmailChangeArgs none) args)), s)
          MethodType := .MethodCall }),
      ("hasServerKeys",
        { MakeArg := fun _ =>
            let ret := List.replicate 1 HasServerKeysArg.zero
            .ptrHasServerKeysArgs (some ret)
          Handler := fun ctx args s =>
            match args with
            | .ptrHasServerKeysArgs typedArgs =>
              match derefIndex0 typedArgs with
              | .error p => (.error p, s)
              | .ok a =>
                let ((ret, err), s') := i.HasServerKeys ctx a.SessionID s
                (.ok (.HasServerKeysRes ret, err), s')
            | _ => (.ok (.nil, some (NewTypeError (.ptrHasServerKeysArgs none) args)), s)
          MethodType := .MethodCall }),
      ("resetAccount",
        { MakeArg := fun _ =>
            let ret := List.replicate 1 ResetAccountArg.zero
            .ptrResetAccountArgs (some ret)
          Handler := fun ctx args s =>
            match args with
            | .ptrResetAccountArgs typedArgs =>
              match derefIndex0 typedArgs with
              | .error p => (.error p, s)
              | .ok a =>
                let (err, s') := i.ResetAccount ctx a.SessionID s
                (.ok (.nil, err), s')
            | _ => (.ok (.nil, some (NewTypeError (.ptrResetAccountArgs none) args)), s)
          MethodType := .MethodCall })
    ] }

/-- Map index expression `p.Methods[name]`. -/
def Protocol.method {Ctx G P σ : Type} (p : Protocol Ctx G P σ) (name : String) :
    Option (ServeHandlerDescription Ctx G P σ) :=
  p.Methods.lookup name

/-- One invocation of a method of an implementation of `AccountInterface`. -/
inductive ImplCall (Ctx G : Type) where
  | PassphraseChange (ctx : Ctx) (arg : PassphraseChangeArg)
  | PassphrasePrompt (ctx : Ctx) (arg : PassphrasePromptArg G)
  | EmailChange (ctx : Ctx) (arg : EmailChangeArg)
  | HasServerKeys (ctx : Ctx) (sessionID : Int)
  | ResetAccount (ctx : Ctx) (sessionID : Int)

/-- The implementation `i`, instrumented: every method does what `i` does and appends the
invocation to a log kept next to the state of `i`. -/
def AccountInterface.traced {Ctx G P σ : Type} (i : AccountInterface Ctx G P σ) :
    AccountInterface Ctx G P (σ × List (ImplCall Ctx G)) :=
  { PassphraseChange := fun ctx a st =>
      ((i.PassphraseChange ctx a st.1).1,
        ((i.PassphraseChange ctx a st.1).2, st.2 ++ [.PassphraseChange ctx a]))
    PassphrasePrompt := fun ctx a st =>
      ((i.PassphrasePrompt ctx a st.1).1,
        ((i.PassphrasePrompt ctx a st.1).2, st.2 ++ [.PassphrasePrompt ctx a]))
    EmailChange := fun ctx a st =>
      ((i.EmailChange ctx a st.1).1,
        ((i.EmailChange ctx a st.1).2, st.2 ++ [.EmailChange ctx a]))
    HasServerKeys := fun ctx sid st =>
      ((i.HasServerKeys ctx sid st.1).1,
        ((i.HasServerKeys ctx sid st.1).2, st.2 ++ [.HasServerKeys ctx sid]))
    ResetAccount := fun ctx sid st =>
      ((i.ResetAccount ctx sid st.1).1,
        ((i.ResetAccount ctx sid st.1).2, st.2 ++ [.ResetAccount ctx sid])) }

/-- Length of the slice behind a non-nil pointer to a slice; `none` for every other value. -/
def Dyn.pointeeLen {G P : Type} : Dyn G P → Option Nat
  | .ptrPassphraseChangeArgs (some l) => some l.length
  | .ptrPassphrasePromptArgs (some l) => some l.length
  | .ptrEmailChangeArgs (some l) => some l.length
  | .ptrHasServerKeysArgs (some l) => some l.length
  | .ptrResetAccountArgs (some l) => some l.length
  | _ => none

/-! ## Client side -/

/-- What the result target handed to `Call` points to: `none` is the nil target. -/
inductive ResKind where
  | none
  | GetPassphraseRes
  | HasServerKeysRes
  deriving DecidableEq, Repr

/-- Type of the variable a result target points to. -/
def ResKind.carrier (P : Type) : ResKind → Type
  | .none => Unit
  | .GetPassphraseRes => P
  | .HasServerKeysRes => Keybase1.HasServerKeysRes

/-- Library interface `rpc.GenericClient`. `Call ctx method args k v t` is
`Call(ctx, method, args, res)` with `res` nil (`k = .none`) or a pointer to a variable of
kind `k` holding `v`; it yields the error and what that variable holds afterwards. -/
structure GenericClient (Ctx G P τ : Type) where
  Call : Ctx → String → Dyn G P → (k : ResKind) → k.carrier P → τ →
    (Option (Error G P) × k.carrier P) × τ

/-- Record `AccountClient`. -/
structure AccountClient (Ctx G P τ : Type) where
  Cli : GenericClient Ctx G P τ

/-- Stub `AccountClient.PassphraseChange`. -/
def AccountClient.PassphraseChange {Ctx G P τ : Type} (c : AccountClient Ctx G P τ)
    (ctx : Ctx) (arg : PassphraseChangeArg) (t : τ) : Option (Error G P) × τ :=
  let r := c.Cli.Call ctx "keybase.1.account.passphraseChange"
    (.ifaceSlice [.PassphraseChangeArg arg]) .none () t
  (r.1.1, r.2)

/-- Stub `AccountClient.PassphrasePrompt`. -/
def AccountClient.PassphrasePrompt {Ctx G P τ : Type} [Inhabited P]
    (c : AccountClient Ctx G P τ) (ctx : Ctx) (arg : PassphrasePromptArg G) (t : τ) :
    (P × Option (Error G P)) × τ :=
  let res : P := default
  let r := c.Cli.Call ctx "keybase.1.account.passphrasePrompt"
    (.ifaceSlice [.PassphrasePromptArg arg]) .GetPassphraseRes res t
  ((r.1.2, r.1.1), r.2)

/-- Stub `AccountClient.EmailChange`. -/
def AccountClient.EmailChange {Ctx G P τ : Type} (c : AccountClient Ctx G P τ)
    (ctx : Ctx) (arg : EmailChangeArg) (t : τ) : Option (Error G P) × τ :=
  let r := c.Cli.Call ctx "keybase.1.account.emailChange"
    (.ifaceSlice [.EmailChangeArg arg]) .none () t
  (r.1.1, r.2)

/-- Stub `AccountClient.HasServerKeys`. -/
def AccountClient.HasServerKeys {Ctx G P τ : Type} (c : AccountClient Ctx G P τ)
    (ctx : Ctx) (sessionID : Int) (t : τ) : (HasServerKeysRes × Option (Error G P)) × τ :=
  let res : HasServerKeysRes := HasServerKeysRes.zero
  let arg : HasServerKeysArg := { SessionID := sessionID }
  let r := c.Cli.Call ctx "keybase.1.account.hasServerKeys"
    (.ifaceSlice [.HasServerKeysArg arg]) .HasServerKeysRes res t
  ((r.1.2, r.1.1), r.2)

/-- Stub `AccountClient.ResetAccount`. -/
def AccountClient.ResetAccount {Ctx G P τ : Type} (c : AccountClient Ctx G P τ)
    (ctx : Ctx) (sessionID : Int) (t : τ) : Option (Error G P) × τ :=
  let arg : ResetAccountArg := { SessionID := sessionID }
  let r := c.Cli.Call ctx "keybase.1.account.resetAccount"
    (.ifaceSlice [.ResetAccountArg arg]) .none () t
  (r.1.1, r.2)

/-- One invocation of `Cli.Call`, as seen by the generic client. -/
structure CallRecord (Ctx G P : Type) where
  ctx : Ctx
  method : String
  args : Dyn G P
  res : ResKind

/-- The generic client `c`, instrumented: `Call` does what `c.Call` does and appends the
invocation to a log kept next to the state of `c`. -/
def GenericClient.traced {Ctx G P τ : Type} (c : GenericClient Ctx G P τ) :
    GenericClient Ctx G P (τ × List (CallRecord Ctx G P)) :=
  { Call := fun ctx method args k v st =>
      ((c.Call ctx method args k v st.1).1,
        ((c.Call ctx method args k v st.1).2,
          st.2 ++ [{ ctx := ctx, method := method, args := args, res := k }])) }

/-! ## Loopback transport -/

/-- Decoding of a positional-argument list into an argument container: a one-element
list holding a record goes into a one-element container of that record type. -/
def deliver {G P : Type} : Dyn G P → Dyn G P → Option (Dyn G P)
  | .ifaceSlice [.PassphraseChangeArg a], .ptrPassphraseChangeArgs (some [_]) =>
    some (.ptrPassphraseChangeArgs (some [a]))
  | .ifaceSlice [.PassphrasePromptArg a], .ptrPassphrasePromptArgs (some [_]) =>
    some (.ptrPassphrasePromptArgs (some [a]))
  | .ifaceSlice [.EmailChangeArg a], .ptrEmailChangeArgs (some [_]) =>
    some (.ptrEmailChangeArgs (some [a]))
  | .ifaceSlice [.HasServerKeysArg a], .ptrHasServerKeysArgs (some [_]) =>
    some (.ptrHasServerKeysArgs (some [a]))
  | .ifaceSlice [.ResetAccountArg a], .ptrResetAccountArgs (some [_]) =>
    some (.ptrResetAccountArgs (some [a]))
  | _, _ => none

/-- Copy of a handler result into a result target of kind `k` holding `v`: a result of
the kind of the target replaces `v`, anything else leaves it. -/
def copyResult {G P : Type} (ret : Dyn G P) : (k : ResKind) → k.carrier P → k.carrier P
  | .none, v => v
  | .GetPassphraseRes, v =>
    match ret with
    | .GetPassphraseRes r => r
    | _ => v
  | .HasServerKeysRes, v =>
    match ret with
    | .HasServerKeysRes r => r
    | _ => v

/-- Modelled from the spec: the transport is outside the embedded files. The loopback
client serves a call in process against `AccountProtocol i`: it finds the descriptor
whose fully qualified name is the called one, delivers the argument list into the
container made by `MakeArg`, runs the `Handler`, and copies the result of the handler
into the result target. -/
def loopback {Ctx G P σ : Type} [Inhabited G] (i : AccountInterface Ctx G P σ) :
    GenericClient Ctx G P σ :=
  { Call := fun ctx method args k v s =>
      match (AccountProtocol i).Methods.find?
          (fun e => (AccountProtocol i).Name ++ "." ++ e.1 == method) with
      | none => ((some (.other "method not found"), v), s)
      | some e =>
        match deliver args (e.2.MakeArg ()) with
        | none => ((some (.other "argument decode"), v), s)
        | some container =>
          match e.2.Handler ctx container s with
          | (.error _, s') => ((some (.other "handler panic"), v), s')
          | (.ok (ret, err), s') => ((err, copyResult ret k v), s') }

/-! ## Sample instances -/

/-- A small implementation on a counter: every method adds to the counter. -/
def sampleImpl : AccountInterface Nat Unit String Nat :=
  { PassphraseChange := fun _ a s => (if a.Force then none else some (.other "no force"), s + 1)
    PassphrasePrompt := fun _ _ s => (("secret", none), s + 2)
    EmailChange := fun _ _ s => (none, s + 3)
    HasServerKeys := fun _ sid s => (({ HasServerKeys := decide (sid = 42) }, none), s + 4)
    ResetAccount := fun _ _ s => (some (.other "denied"), s + 5) }

/-- A small generic client on a counter: it fails on every odd count and writes a fixed
result into the target. -/
def sampleCli : GenericClient Nat Unit String Nat :=
  { Call := fun _ _ _ k v t =>
      ((if t % 2 = 1 then some (.other "odd") else none,
        match k, v with
        | .none, v => v
        | .GetPassphraseRes, _ => "hunter2"
        | .HasServerKeysRes, _ => { HasServerKeys := true }), t + 1) }

end Keybase1

namespace Client

/-! ## Command `list-tracking` -/

/-- A Go `error` made by `fmt.Errorf` from a constant message. -/
structure Error where
  msg : String
  deriving DecidableEq, Repr

/-- Library function `fmt.Errorf`, for a format without verbs. -/
def Errorf (format : String) : Error := { msg := format }

/-- Library record `cli.Context`, as far as `ParseArgv` reads it: the positional
arguments and the values of the boolean and string flags. -/
structure Context where
  positional : List String
  boolFlags : String → Bool
  stringFlags : String → String

/-- Library method `cli.Context.Args`. -/
def Context.Args (ctx : Context) : List String := ctx.positional

/-- Library method `cli.Context.Bool`. -/
def Context.Bool (ctx : Context) (name : String) : Bool := ctx.boolFlags name

/-- Library method `cli.Context.String`. -/
def Context.String (ctx : Context) (name : String) : String := ctx.stringFlags name

/-- Record `CmdListTracking`; `K` stands for `libkb.Contextified` and `UID` for
`keybase1.UID`, both declared outside the embedded files. -/
structure CmdListTracking (K UID : Type) where
  Contextified : K
  uid : UID
  username : String
  filter : String
  json : Bool
  verbose : Bool
  headers : Bool

/-- Method `CmdListTracking.ParseArgv`: the receiver after the call and the error.
`UIDFromHex` is `libkb.UIDFromHex`, which returns a UID together with an error of some
type `E`. -/
def CmdListTracking.ParseArgv {K UID E : Type} (UIDFromHex : String → UID × Option E)
    (s : CmdListTracking K UID) (ctx : Context) : CmdListTracking K UID × Option Error :=
  let byUID := ctx.Bool "uid"
  let body : CmdListTracking K UID → CmdListTracking K UID × Option Error := fun s =>
    let s := { s with json := ctx.Bool "json" }
    let s := { s with verbose := ctx.Bool "verbose" }
    let s := { s with headers := ctx.Bool "headers" }
    let s := { s with filter := ctx.String "filter" }
    (s, none)
  if h : ctx.Args.length = 1 then
    have h0 : 0 < ctx.Args.length := by omega
    if byUID then
      let r := UIDFromHex ctx.Args[0]
      let s := { s with uid := r.1 }
      if r.2.isSome then
        (s, some (Errorf "UID must be a 32-character hex string"))
      else
        body s
    else
      let s := { s with username := ctx.Args[0] }
      body s
  else if ctx.Args.length > 1 then
    (s, some (Errorf "list-tracking takes at most one argument"))
  else
    body s

/-- Record `keybase1.PublicKey`, the field `displayTable` reads. -/
structure PublicKey where
  PGPFingerprint : String
  deriving DecidableEq, Repr

/-- Record `keybase1.TrackProof`, the field `displayTable` reads. -/
structure TrackProof where
  IdString : String
  deriving DecidableEq, Repr

/-- Record `keybase1.Proofs`, the fields `displayTable` reads. -/
structure Proofs where
  Social : List TrackProof
  PublicKeys : List PublicKey
  deriving DecidableEq, Repr

/-- Record `keybase1.UserSummary`, the fields `displayTable` reads; `T` stands for
`keybase1.Time`. -/
structure UserSummary (T : Type) where
  Username : String
  Proofs : Proofs
  SigIDDisplay : String
  TrackTime : T

/-- The loop of the row closure that fills `fps`: slot `i` receives the fingerprint of
key `i` when that fingerprint is not the empty string. -/
def fillFingerprints (keys : List PublicKey) : List String :=
  keys.enum.foldl
    (fun fps ik => if ik.2.PGPFingerprint ≠ "" then fps.set ik.1 ik.2.PGPFingerprint else fps)
    (List.replicate keys.length "")

/-- The closure `rowfunc` of `displayTable`, as a function of the captured counter `i`:
the returned row (`none` is the nil slice) and the counter after the call.
`FormatTime` is `keybase1.FormatTime`. -/
def rowfunc {T : Type} (FormatTime : T → String) (entries : List (UserSummary T))
    (verbose : Bool) (i : Nat) : Option (List String) × Nat :=
  if h : i ≥ entries.length then
    (none, i)
  else
    have hi : i < entries.length := by omega
    let entry := entries[i]
    let i := i + 1
    if !verbose then
      (some [entry.Username], i)
    else
      let fps := fillFingerprints entry.Proofs.PublicKeys
      let row := [
        entry.Username,
        entry.SigIDDisplay,
        String.intercalate ", " fps,
        FormatTime entry.TrackTime ]
      let row := entry.Proofs.Social.foldl (fun row proof => row ++ [proof.IdString]) row
      (some row, i)

/-- A closure with a captured counter, as handed to `Tablify`. -/
structure RowFunc where
  i : Nat
  call : Nat → Option (List String) × Nat

/-- The result of the `k`-th call (counted from 0) of a closure, and the counter after it. -/
def RowFunc.nthCall (f : RowFunc) : Nat → Option (List String) × Nat
  | 0 => f.call f.i
  | k + 1 => RowFunc.nthCall { f with i := (f.call f.i).2 } k

/-- The terminal interface `GlobUI`, as far as `displayTable` uses it, on a state `υ`. -/
structure UI (υ : Type) where
  Printf : String → Nat → String → υ → υ
  Tablify : Option (List String) → RowFunc → υ → υ

/-- Function `displayTable`: the error returned and the state of `GlobUI` afterwards. -/
def displayTable {T υ : Type} (GlobUI : UI υ) (FormatTime : T → String)
    (entries : List (UserSummary T)) (verbose : Bool) (headers : Bool) (u : υ) :
    Option Error × υ :=
  let u :=
    if verbose then
      let noun := if entries.length = 1 then "user" else "users"
      GlobUI.Printf "Tracking %d %s:\n\n" entries.length noun u
    else u
  let cols : Option (List String) :=
    if headers then
      if verbose then
        some ["Username", "Sig ID", "PGP fingerprints", "When Tracked", "Proofs"]
      else
        some ["Username"]
    else none
  let rowfunc : RowFunc := { i := 0, call := rowfunc FormatTime entries verbose }
  let u := GlobUI.Tablify cols rowfunc u
  (none, u)

/-- A context with the given positional arguments and the `uid` flag; the other boolean
flags are set and the filter is `"^a"`. -/
def sampleContext (args : List String) (byUID : Bool) : Context :=
  { positional := args
    boolFlags := fun name => if name = "uid" then byUID else true
    stringFlags := fun name => if name = "filter" then "^a" else "" }

/-- A stand-in for `libkb.UIDFromHex` on UIDs kept as strings: it accepts the strings of
32 characters. -/
def sampleUIDFromHex (s : String) : String × Option Unit :=
  if s.length = 32 then (s, none) else ("", some ())

/-- A receiver with every field at its zero value. -/
def sampleCmd : CmdListTracking Unit String :=
  { Contextified := (), uid := "", username := "", filter := "", json := false,
    verbose := false, headers := false }

/-- Two tracked users. -/
def sampleEntries : List (UserSummary Nat) :=
  [ { Username := "alice"
      Proofs := { Social := [⟨"alice@twitter"⟩, ⟨"alice@github"⟩]
                  PublicKeys := [⟨"AAAA"⟩, ⟨""⟩, ⟨"BBBB"⟩] }
      SigIDDisplay := "sig1"
      TrackTime := 5 },
    { Username := "bob"
      Proofs := { Social := [], PublicKeys := [] }
      SigIDDisplay := "sig2"
      TrackTime := 7 } ]

end Client


/-! # Theorems -/

namespace Keybase1

section Server

variable {Ctx G P σ : Type} [Inhabited G]

/-- A successful lookup in an association list names a pair of the list. -/
theorem mem_of_lookup_eq_some {β : Type} :
    ∀ (l : List (String × β)) (a : String) (b : β), l.lookup a = some b → (a, b) ∈ l := by
  intro l
  induction l with
  | nil => intro a b h; simp [List.lookup] at h
  | cons x xs ih =>
    intro a b h
    obtain ⟨k, v⟩ := x
    by_cases hk : a = k
    · subst hk
      simp [List.lookup] at h
      subst h
      exact List.mem_cons_self _ _
    · have hne : (a == k) = false := by simpa using hk
      simp [List.lookup, hne] at h
      exact List.mem_cons_of_mem _ (ih a b h)

/-- C5 (as amended): for every method of `AccountProtocol` and every `args`, the `Handler`
returns a `(result, error)` pair when `args` is not of the type of the container of the
method, and when it is a non-nil pointer to a slice of length at least 1; on a pointer to
an empty slice it panics with an index out of range, on a nil pointer of the container
type with a nil dereference, in both cases before any method of the implementation is
invoked. -/
theorem handler_returns_or_panics (i : AccountInterface Ctx G P σ) (ctx : Ctx) (s : σ)
    (args : Dyn G P) (m : String)
    (d : ServeHandlerDescription Ctx G P (σ × List (ImplCall Ctx G)))
    (hd : (AccountProtocol i.traced).method m = some d) :
    (args.dynType ≠ (d.MakeArg ()).dynType → ∃ r, (d.Handler ctx args (s, [])).1 = .ok r) ∧
    (args.dynType = (d.MakeArg ()).dynType →
      (∀ n, args.pointeeLen = some (n + 1) → ∃ r, (d.Handler ctx args (s, [])).1 = .ok r) ∧
      (args.pointeeLen = some 0 →
        d.Handler ctx args (s, []) = (.error (.indexOutOfRange 0 0), (s, []))) ∧
      (args.pointeeLen = none → d.Handler ctx args (s, []) = (.error .nilDeref, (s, [])))) := by
  have hmem := mem_of_lookup_eq_some _ _ _ hd
  simp only [AccountProtocol, List.mem_cons, Prod.mk.injEq, List.mem_nil_iff, or_false] at hmem
  rcases hmem with ⟨-, rfl⟩ | ⟨-, rfl⟩ | ⟨-, rfl⟩ | ⟨-, rfl⟩ | ⟨-, rfl⟩
  all_goals
    cases args with
    | ptrPassphraseChangeArgs p =>
      rcases p with _ | _ | ⟨a, l⟩ <;> simp [Dyn.dynType, Dyn.pointeeLen, derefIndex0]
    | ptrPassphrasePromptArgs p =>
      rcases p with _ | _ | ⟨a, l⟩ <;> simp [Dyn.dynType, Dyn.pointeeLen, derefIndex0]
    | ptrEmailChangeArgs p =>
      rcases p with _ | _ | ⟨a, l⟩ <;> simp [Dyn.dynType, Dyn.pointeeLen, derefIndex0]
    | ptrHasServerKeysArgs p =>
      rcases p with _ | _ | ⟨a, l⟩ <;> simp [Dyn.dynType, Dyn.pointeeLen, derefIndex0]
    | ptrResetAccountArgs p =>
      rcases p with _ | _ | ⟨a, l⟩ <;> simp [Dyn.dynType, Dyn.pointeeLen, derefIndex0]
    | _ => simp [Dyn.dynType, Dyn.pointeeLen]

/-- Witness of C5 (as amended): the `hasServerKeys` handler returns a pair on a pointer to a
two-element slice. -/
theorem handler_returns_or_panics_witness :
    ∃ d, (AccountProtocol sampleImpl.traced).method "hasServerKeys" = some d ∧
      ∃ r, (d.Handler 0 (.ptrHasServerKeysArgs (some [⟨42⟩, ⟨7⟩])) (0, [])).1 = .ok r :=
  ⟨_, rfl,
    (handler_returns_or_panics sampleImpl 0 0 (.ptrHasServerKeysArgs (some [⟨42⟩, ⟨7⟩]))
      "hasServerKeys" _ rfl).2 rfl |>.1 1 rfl⟩

/-- C5 (counterexample): the `passphraseChange` handler panics with an index out of range on
a pointer to an empty slice of its own element type, and the `hasServerKeys` handler
panics with a nil dereference on a nil pointer of its container type; neither returns a
`(result, error)` pair. -/
theorem handler_panics_on_empty_or_nil_container :
    ((AccountProtocol sampleImpl).method "passphraseChange").map
        (fun d => (d.Handler 0 (.ptrPassphraseChangeArgs (some [])) 0).1)
      = some (.error (.indexOutOfRange 0 0)) ∧
    ((AccountProtocol sampleImpl).method "hasServerKeys").map
        (fun d => (d.Handler 0 (.ptrHasServerKeysArgs none) 0).1)
      = some (.error .nilDeref) :=
  ⟨rfl, rfl⟩

/-- C2: for each of the five methods, the `Handler` given a pointer to the one-element
slice `[a]` invokes the matching method of the implementation exactly once, with `a`
(passphraseChange, passphrasePrompt, emailChange) or with `a.SessionID` (hasServerKeys,
resetAccount), invokes nothing else, and returns the result and the error of that method
unchanged, the result being nil for the three methods that return only an error. -/
theorem handler_invokes_bound_method_once (i : AccountInterface Ctx G P σ) (ctx : Ctx)
    (s : σ) :
    (∀ a : PassphraseChangeArg,
      ∃ d, (AccountProtocol i.traced).method "passphraseChange" = some d ∧
        d.Handler ctx (.ptrPassphraseChangeArgs (some [a])) (s, []) =
          (.ok (.nil, (i.PassphraseChange ctx a s).1),
            ((i.PassphraseChange ctx a s).2, [.PassphraseChange ctx a]))) ∧
    (∀ a : PassphrasePromptArg G,
      ∃ d, (AccountProtocol i.traced).method "passphrasePrompt" = some d ∧
        d.Handler ctx (.ptrPassphrasePromptArgs (some [a])) (s, []) =
          (.ok (.GetPassphraseRes (i.PassphrasePrompt ctx a s).1.1,
              (i.PassphrasePrompt ctx a s).1.2),
            ((i.PassphrasePrompt ctx a s).2, [.PassphrasePrompt ctx a]))) ∧
    (∀ a : EmailChangeArg,
      ∃ d, (AccountProtocol i.traced).method "emailChange" = some d ∧
        d.Handler ctx (.ptrEmailChangeArgs (some [a])) (s, []) =
          (.ok (.nil, (i.EmailChange ctx a s).1),
            ((i.EmailChange ctx a s).2, [.EmailChange ctx a]))) ∧
    (∀ a : HasServerKeysArg,
      ∃ d, (AccountProtocol i.traced).method "hasServerKeys" = some d ∧
        d.Handler ctx (.ptrHasServerKeysArgs (some [a])) (s, []) =
          (.ok (.HasServerKeysRes (i.HasServerKeys ctx a.SessionID s).1.1,
              (i.HasServerKeys ctx a.SessionID s).1.2),
            ((i.HasServerKeys ctx a.SessionID s).2, [.HasServerKeys ctx a.SessionID]))) ∧
    (∀ a : ResetAccountArg,
      ∃ d, (AccountProtocol i.traced).method "resetAccount" = some d ∧
        d.Handler ctx (.ptrResetAccountArgs (some [a])) (s, []) =
          (.ok (.nil, (i.ResetAccount ctx a.SessionID s).1),
            ((i.ResetAccount ctx a.SessionID s).2, [.ResetAccount ctx a.SessionID]))) :=
  ⟨fun _ => ⟨_, rfl, rfl⟩, fun _ => ⟨_, rfl, rfl⟩, fun _ => ⟨_, rfl, rfl⟩,
    fun _ => ⟨_, rfl, rfl⟩, fun _ => ⟨_, rfl, rfl⟩⟩

/-- C6: for each of the five methods and every `args` whose dynamic type is not the pointer
to a slice of the argument record of the method (the nil interface included), the
`Handler` returns the nil result with the error `rpc.NewTypeError(expected, args)`,
`expected` being the nil pointer of the container type, and invokes no method of the
implementation. -/
theorem handler_rejects_foreign_container (i : AccountInterface Ctx G P σ) (ctx : Ctx)
    (s : σ) (args : Dyn G P) :
    (args.dynType ≠ some (.ptrSlice .PassphraseChangeArg) →
      ∃ d, (AccountProtocol i.traced).method "passphraseChange" = some d ∧
        d.Handler ctx args (s, []) =
          (.ok (.nil, some (NewTypeError (.ptrPassphraseChangeArgs none) args)), (s, []))) ∧
    (args.dynType ≠ some (.ptrSlice .PassphrasePromptArg) →
      ∃ d, (AccountProtocol i.traced).method "passphrasePrompt" = some d ∧
        d.Handler ctx args (s, []) =
          (.ok (.nil, some (NewTypeError (.ptrPassphrasePromptArgs none) args)), (s, []))) ∧
    (args.dynType ≠ some (.ptrSlice .EmailChangeArg) →
      ∃ d, (AccountProtocol i.traced).method "emailChange" = some d ∧
        d.Handler ctx args (s, []) =
          (.ok (.nil, some (NewTypeError (.ptrEmailChangeArgs none) args)), (s, []))) ∧
    (args.dynType ≠ some (.ptrSlice .HasServerKeysArg) →
      ∃ d, (AccountProtocol i.traced).method "hasServerKeys" = some d ∧
        d.Handler ctx args (s, []) =
          (.ok (.nil, some (NewTypeError (.ptrHasServerKeysArgs none) args)), (s, []))) ∧
    (args.dynType ≠ some (.ptrSlice .ResetAccountArg) →
      ∃ d, (AccountProtocol i.traced).method "resetAccount" = some d ∧
        d.Handler ctx args (s, []) =
          (.ok (.nil, some (NewTypeError (.ptrResetAccountArgs none) args)), (s, []))) := by
  refine ⟨fun h => ⟨_, rfl, ?_⟩, fun h => ⟨_, rfl, ?_⟩, fun h => ⟨_, rfl, ?_⟩,
    fun h => ⟨_, rfl, ?_⟩, fun h => ⟨_, rfl, ?_⟩⟩ <;>
  cases args <;> first | rfl | exact absurd rfl h

/-- Witness of C6: a bare `PassphraseChangeArg` record, and the container of
`hasServerKeys`, are both rejected by the `passphraseChange` handler with a type error,
and the implementation is not invoked. -/
theorem handler_rejects_foreign_container_witness :
    (∃ d, (AccountProtocol sampleImpl.traced).method "passphraseChange" = some d ∧
      d.Handler 0 (.PassphraseChangeArg PassphraseChangeArg.zero) (0, []) =
        (.ok (.nil, some (NewTypeError (.ptrPassphraseChangeArgs none)
          (.PassphraseChangeArg PassphraseChangeArg.zero))), (0, []))) ∧
    (∃ d, (AccountProtocol sampleImpl.traced).method "passphraseChange" = some d ∧
      d.Handler 0 (.ptrHasServerKeysArgs (some [⟨42⟩])) (0, []) =
        (.ok (.nil, some (NewTypeError (.ptrPassphraseChangeArgs none)
          (.ptrHasServerKeysArgs (some [⟨42⟩])))), (0, []))) :=
  ⟨(handler_rejects_foreign_container sampleImpl 0 0
      (.PassphraseChangeArg PassphraseChangeArg.zero)).1 (by decide),
    (handler_rejects_foreign_container sampleImpl 0 0
      (.ptrHasServerKeysArgs (some [⟨42⟩]))).1 (by decide)⟩

/-- C7: for each of the five methods and every implementation, `MakeArg` returns a pointer
to a slice of the argument record of the method, of the dynamic type the `Handler` of the
same descriptor accepts (the handler run on it reaches the implementation instead of
returning a type error), holding exactly one element, the zero value of the record; the
value is the same for every implementation and takes no state. -/
theorem makeArg_fresh_zero_container (i : AccountInterface Ctx G P σ) (ctx : Ctx) (s : σ) :
    (∃ d, (AccountProtocol i.traced).method "passphraseChange" = some d ∧
      d.MakeArg () = .ptrPassphraseChangeArgs (some
        [{ SessionID := 0, OldPassphrase := "", Passphrase := "", Force := false }]) ∧
      (d.Handler ctx (d.MakeArg ()) (s, [])).2.2 =
        [.PassphraseChange ctx
          { SessionID := 0, OldPassphrase := "", Passphrase := "", Force := false }]) ∧
    (∃ d, (AccountProtocol i.traced).method "passphrasePrompt" = some d ∧
      d.MakeArg () = .ptrPassphrasePromptArgs (some [{ SessionID := 0, GuiArg := default }]) ∧
      (d.Handler ctx (d.MakeArg ()) (s, [])).2.2 =
        [.PassphrasePrompt ctx { SessionID := 0, GuiArg := default }]) ∧
    (∃ d, (AccountProtocol i.traced).method "emailChange" = some d ∧
      d.MakeArg () = .ptrEmailChangeArgs (some [{ SessionID := 0, NewEmail := "" }]) ∧
      (d.Handler ctx (d.MakeArg ()) (s, [])).2.2 =
        [.EmailChange ctx { SessionID := 0, NewEmail := "" }]) ∧
    (∃ d, (AccountProtocol i.traced).method "hasServerKeys" = some d ∧
      d.MakeArg () = .ptrHasServerKeysArgs (some [{ SessionID := 0 }]) ∧
      (d.Handler ctx (d.MakeArg ()) (s, [])).2.2 = [.HasServerKeys ctx 0]) ∧
    (∃ d, (AccountProtocol i.traced).method "resetAccount" = some d ∧
      d.MakeArg () = .ptrResetAccountArgs (some [{ SessionID := 0 }]) ∧
      (d.Handler ctx (d.MakeArg ()) (s, [])).2.2 = [.ResetAccount ctx 0]) :=
  ⟨⟨_, rfl, rfl, rfl⟩, ⟨_, rfl, rfl, rfl⟩, ⟨_, rfl, rfl, rfl⟩, ⟨_, rfl, rfl, rfl⟩,
    ⟨_, rfl, rfl, rfl⟩⟩

end Server
end Keybase1

namespace Keybase1

section Client

variable {Ctx G P σ τ : Type}

/-- C1: over the loopback transport, `AccountClient.HasServerKeys ctx sessionID` returns
exactly the pair `(res, err)` that `i.HasServerKeys ctx sessionID` returns and leaves the
implementation in the state that call leaves it in; the implementation is invoked once,
with `ctx` and `sessionID`. With `sessionID = 42` and an implementation that answers
`{HasServerKeys: true}`, the stub returns `{HasServerKeys: true}`. -/
theorem hasServerKeys_loopback_roundtrip [Inhabited G] (i : AccountInterface Ctx G P σ) (ctx : Ctx)
    (sessionID : Int) (s : σ) :
    AccountClient.HasServerKeys { Cli := loopback i } ctx sessionID s =
      i.HasServerKeys ctx sessionID s ∧
    AccountClient.HasServerKeys { Cli := loopback i.traced } ctx sessionID (s, []) =
      ((i.HasServerKeys ctx sessionID s).1,
        ((i.HasServerKeys ctx sessionID s).2, [.HasServerKeys ctx sessionID])) ∧
    (AccountClient.HasServerKeys { Cli := loopback sampleImpl.traced } 0 42 (0, [])).1 =
      ({ HasServerKeys := true }, none) :=
  ⟨rfl, rfl, rfl⟩

/-- C3: the method table of `AccountProtocol i` has exactly the five keys passphraseChange,
passphrasePrompt, emailChange, hasServerKeys and resetAccount, each once; every
`AccountClient` stub calls `Cli.Call` exactly with the name `Name + "." + key` of its key,
which is `"keybase.1.account." + key`; the five names are pairwise distinct. -/
theorem stub_names_match_method_table [Inhabited G] [Inhabited P] (i : AccountInterface Ctx G P σ)
    (c : GenericClient Ctx G P τ) (ctx : Ctx) (t : τ) (a₁ : PassphraseChangeArg)
    (a₂ : PassphrasePromptArg G) (a₃ : EmailChangeArg) (sid₄ sid₅ : Int) :
    (AccountProtocol i).Methods.map Prod.fst =
      ["passphraseChange", "passphrasePrompt", "emailChange", "hasServerKeys",
        "resetAccount"] ∧
    ((AccountClient.PassphraseChange { Cli := c.traced } ctx a₁ (t, [])).2.2.map
        CallRecord.method = [(AccountProtocol i).Name ++ "." ++ "passphraseChange"] ∧
      (AccountClient.PassphrasePrompt { Cli := c.traced } ctx a₂ (t, [])).2.2.map
        CallRecord.method = [(AccountProtocol i).Name ++ "." ++ "passphrasePrompt"] ∧
      (AccountClient.EmailChange { Cli := c.traced } ctx a₃ (t, [])).2.2.map
        CallRecord.method = [(AccountProtocol i).Name ++ "." ++ "emailChange"] ∧
      (AccountClient.HasServerKeys { Cli := c.traced } ctx sid₄ (t, [])).2.2.map
        CallRecord.method = [(AccountProtocol i).Name ++ "." ++ "hasServerKeys"] ∧
      (AccountClient.ResetAccount { Cli := c.traced } ctx sid₅ (t, [])).2.2.map
        CallRecord.method = [(AccountProtocol i).Name ++ "." ++ "resetAccount"]) ∧
    (AccountProtocol i).Methods.map (fun e => (AccountProtocol i).Name ++ "." ++ e.1) =
      ["keybase.1.account.passphraseChange", "keybase.1.account.passphrasePrompt",
        "keybase.1.account.emailChange", "keybase.1.account.hasServerKeys",
        "keybase.1.account.resetAccount"] ∧
    ((AccountProtocol i).Methods.map
      (fun e => (AccountProtocol i).Name ++ "." ++ e.1)).Nodup := by
  refine ⟨rfl, ⟨?_, ?_, ?_, ?_, ?_⟩, ?_, ?_⟩
  · simp [AccountClient.PassphraseChange, GenericClient.traced, AccountProtocol]
  · simp [AccountClient.PassphrasePrompt, GenericClient.traced, AccountProtocol]
  · simp [AccountClient.EmailChange, GenericClient.traced, AccountProtocol]
  · simp [AccountClient.HasServerKeys, GenericClient.traced, AccountProtocol]
  · simp [AccountClient.ResetAccount, GenericClient.traced, AccountProtocol]
  · simp [AccountProtocol]
  · simp [AccountProtocol]

/-- C4: every `AccountClient` stub performs exactly one `Cli.Call`; it passes `ctx`
unchanged and, as args, a list of exactly one element, the argument record (the record of
the caller for PassphraseChange, PassphrasePrompt and EmailChange, the record holding
`sessionID` for HasServerKeys and ResetAccount); the error the stub returns is the one
that call returned, and the client is left in the state that one call leaves it in. -/
theorem stub_calls_once [Inhabited P] (c : GenericClient Ctx G P τ) (ctx : Ctx) (t : τ)
    (a₁ : PassphraseChangeArg) (a₂ : PassphrasePromptArg G) (a₃ : EmailChangeArg)
    (sid₄ sid₅ : Int) :
    (AccountClient.PassphraseChange { Cli := c.traced } ctx a₁ (t, []) =
      ((c.Call ctx "keybase.1.account.passphraseChange"
          (.ifaceSlice [.PassphraseChangeArg a₁]) .none () t).1.1,
        ((c.Call ctx "keybase.1.account.passphraseChange"
          (.ifaceSlice [.PassphraseChangeArg a₁]) .none () t).2,
        [{ ctx := ctx, method := "keybase.1.account.passphraseChange",
           args := .ifaceSlice [.PassphraseChangeArg a₁], res := .none }]))) ∧
    ((AccountClient.PassphrasePrompt { Cli := c.traced } ctx a₂ (t, [])).1.2 =
        (c.Call ctx "keybase.1.account.passphrasePrompt"
          (.ifaceSlice [.PassphrasePromptArg a₂]) .GetPassphraseRes (default : P) t).1.1 ∧
      (AccountClient.PassphrasePrompt { Cli := c.traced } ctx a₂ (t, [])).2 =
        ((c.Call ctx "keybase.1.account.passphrasePrompt"
          (.ifaceSlice [.PassphrasePromptArg a₂]) .GetPassphraseRes (default : P) t).2,
        [{ ctx := ctx, method := "keybase.1.account.passphrasePrompt",
           args := .ifaceSlice [.PassphrasePromptArg a₂], res := .GetPassphraseRes }])) ∧
    (AccountClient.EmailChange { Cli := c.traced } ctx a₃ (t, []) =
      ((c.Call ctx "keybase.1.account.emailChange"
          (.ifaceSlice [.EmailChangeArg a₃]) .none () t).1.1,
        ((c.Call ctx "keybase.1.account.emailChange"
          (.ifaceSlice [.EmailChangeArg a₃]) .none () t).2,
        [{ ctx := ctx, method := "keybase.1.account.emailChange",
           args := .ifaceSlice [.EmailChangeArg a₃], res := .none }]))) ∧
    ((AccountClient.HasServerKeys { Cli := c.traced } ctx sid₄ (t, [])).1.2 =
        (c.Call ctx "keybase.1.account.hasServerKeys"
          (.ifaceSlice [.HasServerKeysArg { SessionID := sid₄ }]) .HasServerKeysRes
          { HasServerKeys := false } t).1.1 ∧
      (AccountClient.HasServerKeys { Cli := c.traced } ctx sid₄ (t, [])).2 =
        ((c.Call ctx "keybase.1.account.hasServerKeys"
          (.ifaceSlice [.HasServerKeysArg { SessionID := sid₄ }]) .HasServerKeysRes
          { HasServerKeys := false } t).2,
        [{ ctx := ctx, method := "keybase.1.account.hasServerKeys",
           args := .ifaceSlice [.HasServerKeysArg { SessionID := sid₄ }],
           res := .HasServerKeysRes }])) ∧
    (AccountClient.ResetAccount { Cli := c.traced } ctx sid₅ (t, []) =
      ((c.Call ctx "keybase.1.account.resetAccount"
          (.ifaceSlice [.ResetAccountArg { SessionID := sid₅ }]) .none () t).1.1,
        ((c.Call ctx "keybase.1.account.resetAccount"
          (.ifaceSlice [.ResetAccountArg { SessionID := sid₅ }]) .none () t).2,
        [{ ctx := ctx, method := "keybase.1.account.resetAccount",
           args := .ifaceSlice [.ResetAccountArg { SessionID := sid₅ }], res := .none }]))) :=
  ⟨rfl, ⟨rfl, rfl⟩, rfl, ⟨rfl, rfl⟩, rfl⟩

/-- C8 (counterexample): `passphraseChange` is registered with `MethodType` Call, and yet its
stub hands the nil result target to `Cli.Call` (and returns only an error). -/
theorem call_method_stub_without_result_target :
    ((AccountProtocol sampleImpl).method "passphraseChange").map
        (fun d => d.MethodType) = some .MethodCall ∧
    (AccountClient.PassphraseChange { Cli := sampleCli.traced } 0
        PassphraseChangeArg.zero (0, [])).2.2.map CallRecord.res = [ResKind.none] :=
  ⟨rfl, rfl⟩

/-- C8 (as amended): all five methods are registered with `MethodType` Call, none with
Notify. The stubs of the two methods whose interface method returns a result
(PassphrasePrompt, HasServerKeys) hand a non-nil result target to `Cli.Call` and return
what the call left in that target, together with the error of the call. The stubs of the
three methods whose interface method returns only an error (PassphraseChange,
EmailChange, ResetAccount) hand the nil result target and return only the error. -/
theorem stub_shape_follows_result_type [Inhabited G] [Inhabited P] (i : AccountInterface Ctx G P σ)
    (c : GenericClient Ctx G P τ) (ctx : Ctx) (t : τ) (a₁ : PassphraseChangeArg)
    (a₂ : PassphrasePromptArg G) (a₃ : EmailChangeArg) (sid₄ sid₅ : Int) :
    (AccountProtocol i).Methods.map (fun e => (e.1, e.2.MethodType)) =
      [("passphraseChange", .MethodCall), ("passphrasePrompt", .MethodCall),
        ("emailChange", .MethodCall), ("hasServerKeys", .MethodCall),
        ("resetAccount", .MethodCall)] ∧
    ((AccountClient.PassphrasePrompt { Cli := c.traced } ctx a₂ (t, [])).2.2.map
        CallRecord.res = [.GetPassphraseRes] ∧
      (AccountClient.PassphrasePrompt { Cli := c } ctx a₂ t).1 =
        ((c.Call ctx "keybase.1.account.passphrasePrompt"
            (.ifaceSlice [.PassphrasePromptArg a₂]) .GetPassphraseRes (default : P) t).1.2,
          (c.Call ctx "keybase.1.account.passphrasePrompt"
            (.ifaceSlice [.PassphrasePromptArg a₂]) .GetPassphraseRes (default : P) t).1.1)) ∧
    ((AccountClient.HasServerKeys { Cli := c.traced } ctx sid₄ (t, [])).2.2.map
        CallRecord.res = [.HasServerKeysRes] ∧
      (AccountClient.HasServerKeys { Cli := c } ctx sid₄ t).1 =
        ((c.Call ctx "keybase.1.account.hasServerKeys"
            (.ifaceSlice [.HasServerKeysArg { SessionID := sid₄ }]) .HasServerKeysRes
            { HasServerKeys := false } t).1.2,
          (c.Call ctx "keybase.1.account.hasServerKeys"
            (.ifaceSlice [.HasServerKeysArg { SessionID := sid₄ }]) .HasServerKeysRes
            { HasServerKeys := false } t).1.1)) ∧
    (AccountClient.PassphraseChange { Cli := c.traced } ctx a₁ (t, [])).2.2.map
      CallRecord.res = [.none] ∧
    (AccountClient.EmailChange { Cli := c.traced } ctx a₃ (t, [])).2.2.map
      CallRecord.res = [.none] ∧
    (AccountClient.ResetAccount { Cli := c.traced } ctx sid₅ (t, [])).2.2.map
      CallRecord.res = [.none] :=
  ⟨rfl, ⟨rfl, rfl⟩, ⟨rfl, rfl⟩, rfl, rfl, rfl⟩

end Client
end Keybase1

namespace Client

/-- C9: `ParseArgv` returns an error exactly when there is more than one positional
argument, or exactly one with the uid flag set that `UIDFromHex` rejects, with the
messages "list-tracking takes at most one argument" and "UID must be a 32-character hex
string". When it fails for more than one argument the receiver is unchanged. When it
succeeds with exactly one argument, either the uid flag is set, `uid` is what `UIDFromHex`
made of the argument and `username` is unchanged, or the flag is unset, `username` is the
argument and `uid` is unchanged; `json`, `verbose`, `headers` and `filter` are the values
of the flags of the context. -/
theorem parseArgv_error_iff {K UID E : Type} (UIDFromHex : String → UID × Option E)
    (s : CmdListTracking K UID) (ctx : Context) :
    ((s.ParseArgv UIDFromHex ctx).2 ≠ none ↔
      (1 < ctx.Args.length ∨
        ∃ a, ctx.Args = [a] ∧ ctx.Bool "uid" = true ∧ (UIDFromHex a).2 ≠ none)) ∧
    (1 < ctx.Args.length →
      s.ParseArgv UIDFromHex ctx =
        (s, some { msg := "list-tracking takes at most one argument" })) ∧
    (∀ a, ctx.Args = [a] → ctx.Bool "uid" = true → (UIDFromHex a).2 ≠ none →
      (s.ParseArgv UIDFromHex ctx).2 =
        some { msg := "UID must be a 32-character hex string" }) ∧
    (∀ a, ctx.Args = [a] → (s.ParseArgv UIDFromHex ctx).2 = none →
      ((ctx.Bool "uid" = true ∧
          (s.ParseArgv UIDFromHex ctx).1.uid = (UIDFromHex a).1 ∧
          (s.ParseArgv UIDFromHex ctx).1.username = s.username) ∨
        (ctx.Bool "uid" = false ∧
          (s.ParseArgv UIDFromHex ctx).1.username = a ∧
          (s.ParseArgv UIDFromHex ctx).1.uid = s.uid)) ∧
      (s.ParseArgv UIDFromHex ctx).1.json = ctx.Bool "json" ∧
      (s.ParseArgv UIDFromHex ctx).1.verbose = ctx.Bool "verbose" ∧
      (s.ParseArgv UIDFromHex ctx).1.headers = ctx.Bool "headers" ∧
      (s.ParseArgv UIDFromHex ctx).1.filter = ctx.String "filter" ∧
      (s.ParseArgv UIDFromHex ctx).1.Contextified = s.Contextified) := by
  obtain ⟨args, bf, sf⟩ := ctx
  rcases args with _ | ⟨a, _ | ⟨b, l⟩⟩
  · simp [CmdListTracking.ParseArgv, Context.Args, Context.Bool, Context.String]
  · cases hb : bf "uid" <;> cases hu : (UIDFromHex a).2 <;>
      simp [CmdListTracking.ParseArgv, Context.Args, Context.Bool, Context.String, Errorf,
        hb, hu]
  · simp [CmdListTracking.ParseArgv, Context.Args, Context.Bool, Context.String, Errorf]

/-- Witness of C9: two positional arguments are refused and leave the receiver unchanged; one
argument of the wrong length with the uid flag is refused; one argument without the uid
flag becomes the username. -/
theorem parseArgv_error_iff_witness :
    sampleCmd.ParseArgv sampleUIDFromHex (sampleContext ["alice", "bob"] true) =
      (sampleCmd, some { msg := "list-tracking takes at most one argument" }) ∧
    (sampleCmd.ParseArgv sampleUIDFromHex (sampleContext ["abc"] true)).2 =
      some { msg := "UID must be a 32-character hex string" } ∧
    (sampleCmd.ParseArgv sampleUIDFromHex (sampleContext ["alice"] false)).1.json = true :=
  ⟨(parseArgv_error_iff sampleUIDFromHex sampleCmd (sampleContext ["alice", "bob"] true)).2.1
      (by decide),
    (parseArgv_error_iff sampleUIDFromHex sampleCmd (sampleContext ["abc"] true)).2.2.1
      "abc" rfl (by decide) (by decide),
    ((parseArgv_error_iff sampleUIDFromHex sampleCmd (sampleContext ["alice"] false)).2.2.2
      "alice" rfl (by decide)).2.1⟩

/-- The fill loop, started after a filled part `pre`, completes it with one slot per key. -/
theorem fill_loop_from (keys : List PublicKey) :
    ∀ pre : List String,
      (keys.enumFrom pre.length).foldl
          (fun fps ik =>
            if ik.2.PGPFingerprint ≠ "" then fps.set ik.1 ik.2.PGPFingerprint else fps)
          (pre ++ List.replicate keys.length "")
        = pre ++ keys.map (fun k => k.PGPFingerprint) := by
  induction keys with
  | nil => intro pre; simp
  | cons k ks ih =>
    intro pre
    have step : (if k.PGPFingerprint ≠ "" then
          (pre ++ List.replicate (ks.length + 1) "").set pre.length k.PGPFingerprint
        else pre ++ List.replicate (ks.length + 1) "")
        = (pre ++ [k.PGPFingerprint]) ++ List.replicate ks.length "" := by
      by_cases hk : k.PGPFingerprint = ""
      · simp [hk, List.replicate_succ]
      · simp [hk, List.replicate_succ, List.set_append]
    have hlen : (pre ++ [k.PGPFingerprint]).length = pre.length + 1 := by simp
    have := ih (pre ++ [k.PGPFingerprint])
    rw [hlen] at this
    simp only [List.enumFrom_cons, List.foldl_cons, List.length_cons, step, this]
    simp

/-- The fill loop yields the fingerprint of every key, in order. -/
theorem fillFingerprints_eq_map (keys : List PublicKey) :
    fillFingerprints keys = keys.map (fun k => k.PGPFingerprint) := by
  have := fill_loop_from keys []
  simpa [fillFingerprints, List.enum] using this

/-- Appending one proof at a time appends the identifiers of all proofs. -/
theorem foldl_append_idString (social : List TrackProof) :
    ∀ row : List String,
      social.foldl (fun row proof => row ++ [proof.IdString]) row
        = row ++ social.map (fun p => p.IdString) := by
  induction social with
  | nil => intro row; simp
  | cons p ps ih => intro row; simp [ih]

/-- One call of the row closure at a counter within the entries. -/
theorem rowfunc_lt {T : Type} (FormatTime : T → String) (entries : List (UserSummary T))
    (verbose : Bool) (i : Nat) (hi : i < entries.length) :
    rowfunc FormatTime entries verbose i =
      (some (if verbose = true then
          [entries[i].Username, entries[i].SigIDDisplay,
            String.intercalate ", "
              (entries[i].Proofs.PublicKeys.map (fun k => k.PGPFingerprint)),
            FormatTime entries[i].TrackTime]
            ++ entries[i].Proofs.Social.map (fun p => p.IdString)
        else [entries[i].Username]), i + 1) := by
  have hn : ¬ i ≥ entries.length := by omega
  cases verbose <;>
    simp [rowfunc, hn, fillFingerprints_eq_map, foldl_append_idString]

/-- One call of the row closure at a counter past the entries. -/
theorem rowfunc_ge {T : Type} (FormatTime : T → String) (entries : List (UserSummary T))
    (verbose : Bool) (i : Nat) (hi : entries.length ≤ i) :
    rowfunc FormatTime entries verbose i = (none, i) := by
  simp [rowfunc, hi]

/-- The `k`-th call of the row closure started at a counter `i` within the entries is the
call at counter `i + k`, capped at the number of entries. -/
theorem nthCall_rowfunc {T : Type} (FormatTime : T → String)
    (entries : List (UserSummary T)) (verbose : Bool) :
    ∀ (k i : Nat), i ≤ entries.length →
      RowFunc.nthCall { i := i, call := rowfunc FormatTime entries verbose } k =
        rowfunc FormatTime entries verbose (min (i + k) entries.length) := by
  intro k
  induction k with
  | zero => intro i hi; simp [RowFunc.nthCall, Nat.min_eq_left hi]
  | succ k ih =>
    intro i hi
    rcases Nat.lt_or_ge i entries.length with hlt | hge
    · have h1 := ih (i + 1) hlt
      simp only [RowFunc.nthCall, rowfunc_lt FormatTime entries verbose i hlt]
      rw [h1]
      congr 1
      omega
    · have h1 := ih i hi
      simp only [RowFunc.nthCall, rowfunc_ge FormatTime entries verbose i hge]
      rw [h1]
      congr 1
      omega

/-- C10: `displayTable` hands to `Tablify` the row closure with its counter at 0. For a list
of `n` entries the `k`-th call of that closure (`k < n`) returns the row of `entries[k]`
and every call from the `n`-th on returns nil. Without `verbose` the row is `[Username]`;
with `verbose` it is Username, SigIDDisplay, the PGP fingerprints of all public keys
joined by ", " (one slot per key, empty for a key without fingerprint),
`FormatTime TrackTime`, then the `IdString` of every social proof in order, so its length
is 4 plus the number of social proofs. -/
theorem rowfunc_enumerates_entries {T υ : Type} (GlobUI : UI υ) (FormatTime : T → String)
    (entries : List (UserSummary T)) (verbose headers : Bool) (u : υ) :
    (∃ cols u', displayTable GlobUI FormatTime entries verbose headers u =
      (none, GlobUI.Tablify cols
        { i := 0, call := rowfunc FormatTime entries verbose } u')) ∧
    (∀ (k : Nat) (hk : k < entries.length),
      (RowFunc.nthCall { i := 0, call := rowfunc FormatTime entries verbose } k).1 =
        some (if verbose = true then
          [entries[k].Username, entries[k].SigIDDisplay,
            String.intercalate ", "
              (entries[k].Proofs.PublicKeys.map (fun key => key.PGPFingerprint)),
            FormatTime entries[k].TrackTime]
            ++ entries[k].Proofs.Social.map (fun p => p.IdString)
        else [entries[k].Username])) ∧
    (∀ k : Nat, entries.length ≤ k →
      (RowFunc.nthCall { i := 0, call := rowfunc FormatTime entries verbose } k).1 = none) ∧
    (verbose = true → ∀ (k : Nat) (hk : k < entries.length),
      ∃ row, (RowFunc.nthCall { i := 0, call := rowfunc FormatTime entries verbose } k).1 =
          some row ∧
        row.length = 4 + entries[k].Proofs.Social.length) := by
  refine ⟨⟨_, _, rfl⟩, ?_, ?_, ?_⟩
  · intro k hk
    rw [nthCall_rowfunc FormatTime entries verbose k 0 (Nat.zero_le _)]
    have hmin : min (0 + k) entries.length = k := by omega
    simp only [hmin]
    rw [rowfunc_lt FormatTime entries verbose k hk]
  · intro k hk
    rw [nthCall_rowfunc FormatTime entries verbose k 0 (Nat.zero_le _)]
    have hmin : min (0 + k) entries.length = entries.length := by omega
    rw [hmin, rowfunc_ge FormatTime entries verbose _ (Nat.le_refl _)]
  · intro hv k hk
    subst hv
    rw [nthCall_rowfunc FormatTime entries true k 0 (Nat.zero_le _)]
    have hmin : min (0 + k) entries.length = k := by omega
    simp only [hmin]
    rw [rowfunc_lt FormatTime entries true k hk]
    exact ⟨_, rfl, by simp; omega⟩

/-- Witness of C10: on the two sample entries, in verbose mode, the first call returns the
row of the first entry, with an empty slot for the key without fingerprint, and the third
call returns nil. -/
theorem rowfunc_enumerates_entries_witness :
    (RowFunc.nthCall { i := 0, call := rowfunc toString sampleEntries true } 0).1 =
      some ["alice", "sig1", "AAAA, , BBBB", "5", "alice@twitter", "alice@github"] ∧
    (RowFunc.nthCall { i := 0, call := rowfunc toString sampleEntries true } 2).1 = none :=
  ⟨((rowfunc_enumerates_entries (⟨fun _ _ _ u => u, fun _ _ u => u⟩ : UI Unit) toString
      sampleEntries true false ()).2.1 0 (by decide)).trans (by decide),
    (rowfunc_enumerates_entries (⟨fun _ _ _ u => u, fun _ _ u => u⟩ : UI Unit) toString
      sampleEntries true false ()).2.2.1 2 (by decide)⟩

end Client
